import Mathlib

/-!
Shallow embedding of the online DAG evaluation engine
(`src/superlinked/framework/online/dag/online_categorical_similarity_node.py`)
and of the ingestion data loader
(`server/runner/executor/app/service/data_loader.py`).

Vector scalars are modelled as rationals; the claims under verification are
structural (lengths, ordering, error paths), never facts about floating-point
arithmetic. Parts of the framework that the source file calls but whose code
is not in the repository snapshot (the `OnlineNode` base class, the execution
context, the parent validator, the storage manager) are modelled from the
specification; each such definition is marked `Modelled from the spec`.
-/

set_option autoImplicit false

namespace Superlinked

/-- Vector: fixed-length ordered sequence of numbers (scalars modelled as ℚ). -/
structure Vector where
  value : List ℚ
deriving DecidableEq

/-- ParsedSchema: one structured input record; its identity is the pair of the
schema name and the record id. -/
structure ParsedSchema where
  schemaName : String
  id_ : String
deriving DecidableEq

/-- Modelled from the spec: ExecutionContext holds a default-pass flag and
scope identifiers used for storage keys (`context.py` is not in the snapshot). -/
structure ExecutionContext where
  should_load_default_node_input : Bool
  scope : String
deriving DecidableEq

/-- One computed value attributed to the producing node
(`SingleEvaluationResult(node_id, value)`). -/
structure SingleEvaluationResult (α : Type) where
  node_id : String
  value : α
deriving DecidableEq

/-- EvaluationResult: a main value plus auxiliary chunk values
(the node under study always constructs it with empty chunks). -/
structure EvaluationResult (α : Type) where
  main : SingleEvaluationResult α
  chunks : List (SingleEvaluationResult α)
deriving DecidableEq

/-- Modelled from the spec: the storage key is a stable composite of schema
identity and node identity. -/
structure StorageKey where
  schemaName : String
  objectId : String
  node_id : String
deriving DecidableEq

/-- Modelled from the spec: StorageManager is an opaque keyed store,
`load(key) -> Vector | absent`. -/
def StorageManager : Type := StorageKey → Option Vector

/-- CategoricalSimilarityNode: static node configuration. The per-kind
configuration is its category list; `node_id` identifies it. -/
structure CategoricalSimilarityNode where
  node_id : String
  categories : List String
deriving DecidableEq

/-- The node's declared output vector length (`self.node.length`); for the
categorical kind it is determined by the embedding configuration. -/
def CategoricalSimilarityNode.length (node : CategoricalSimilarityNode) : Nat :=
  node.categories.length

/-- Modelled from the spec: the node kind's statically configured default
Vector, of dimensionality `Node.length` (`self.node.default_vector`). -/
def CategoricalSimilarityNode.default_vector (node : CategoricalSimilarityNode) : Vector :=
  ⟨List.replicate node.length 0⟩

/-- Modelled from the spec: the node kind's embedding transformation closed
over the context (`self.node.embedding.embed(value, context)`); its internals
are out of scope, only the call contract matters: a deterministic function of
the input value and the context producing this node's Vector. Modelled as a
one-hot encoding over the configured categories. -/
def CategoricalSimilarityNode.embed (node : CategoricalSimilarityNode) (value : String)
    (_context : ExecutionContext) : Vector :=
  ⟨node.categories.map (fun c => if c = value then 1 else 0)⟩

/-- Modelled from the spec: the closed set of arity policies
(`parent_validator.py` is not in the snapshot; the source file uses
`LESS_THAN_TWO_PARENTS`). -/
inductive ParentValidationType where
  | NO_PARENTS
  | EXACTLY_ONE_PARENT
  | AT_LEAST_ONE_PARENT
  | LESS_THAN_TWO_PARENTS
  | ANY_PARENTS
deriving DecidableEq

/-- Modelled from the spec: each policy's predicate on the parent count. -/
def ParentValidationType.validate : ParentValidationType → Nat → Bool
  | NO_PARENTS, n => n == 0
  | EXACTLY_ONE_PARENT, n => n == 1
  | AT_LEAST_ONE_PARENT, n => decide (1 ≤ n)
  | LESS_THAN_TWO_PARENTS, n => decide (n < 2)
  | ANY_PARENTS, _ => true

/-- Evaluation-time failures surfaced by the engine. -/
inductive EvalError where
  /-- A source node found no stored value (`MissingStoredResultError`). -/
  | missingStoredResult (schemaName objectId node_id : String)
  /-- Out-of-range indexing (Python `IndexError` on `[0]`). -/
  | indexError
deriving DecidableEq

/-- A parent OnlineNode, abstracted to its `evaluate_next_single` behavior:
the node under study casts its parent to `OnlineNode[Node[str], str]` and
only calls that method. -/
def ParentNode : Type :=
  ParsedSchema → ExecutionContext → Except EvalError (EvaluationResult String)

/-- Runtime evaluator wrapping the static node, its parent evaluators and the
shared storage manager. -/
structure OnlineCategoricalSimilarityNode where
  node : CategoricalSimilarityNode
  parents : List ParentNode
  storage_manager : StorageManager

/-- Construction-time failure. -/
inductive ConfigurationError where
  | invalidParentCount (found : Nat)
deriving DecidableEq

/-- Modelled from the spec: `OnlineNode.__init__` (base class not in the
snapshot) validates `len(parents)` against the ParentValidationType supplied
by the subclass — here `LESS_THAN_TWO_PARENTS` — and raises a configuration
error on violation, with no evaluation side effects. -/
def OnlineCategoricalSimilarityNode.construct (node : CategoricalSimilarityNode)
    (parents : List ParentNode) (storage_manager : StorageManager) :
    Except ConfigurationError OnlineCategoricalSimilarityNode :=
  if ParentValidationType.LESS_THAN_TWO_PARENTS.validate parents.length then
    .ok ⟨node, parents, storage_manager⟩
  else
    .error (.invalidParentCount parents.length)

/-- The node's declared length capability (`length` property of the class). -/
def OnlineCategoricalSimilarityNode.length (self : OnlineCategoricalSimilarityNode) : Nat :=
  self.node.length

/-- Modelled from the spec: `_get_single_evaluation_result` of the base class
attributes a value to this node. -/
def OnlineCategoricalSimilarityNode.get_single_evaluation_result {α : Type}
    (self : OnlineCategoricalSimilarityNode) (value : α) : SingleEvaluationResult α :=
  ⟨self.node.node_id, value⟩

/-- Modelled from the spec: `_should_return_default_vector` — the context
signals a default-vector pass; the decision depends on the context alone and
is applied uniformly to the whole batch. -/
def OnlineCategoricalSimilarityNode.should_return_default_vector
    (_self : OnlineCategoricalSimilarityNode) (_parsed_schemas : List ParsedSchema)
    (context : ExecutionContext) : Bool :=
  context.should_load_default_node_input

/-- Modelled from the spec: `load_stored_result_or_raise_exception` of the
base class — attempt `StorageManager.load(key(node, schema))`; if absent,
fail with `MissingStoredResultError`. -/
def OnlineCategoricalSimilarityNode.load_stored_result_or_raise_exception
    (self : OnlineCategoricalSimilarityNode) (parsed_schema : ParsedSchema) :
    Except EvalError Vector :=
  match self.storage_manager ⟨parsed_schema.schemaName, parsed_schema.id_, self.node.node_id⟩ with
  | some stored => .ok stored
  | none => .error (.missingStoredResult parsed_schema.schemaName parsed_schema.id_ self.node.node_id)

/-- `evaluate_self_single` (lines 70–84 of the source): zero parents load
from storage, one parent pulls the parent's main value and embeds it. -/
def OnlineCategoricalSimilarityNode.evaluate_self_single
    (self : OnlineCategoricalSimilarityNode) (parsed_schema : ParsedSchema)
    (context : ExecutionContext) : Except EvalError (EvaluationResult Vector) :=
  match self.parents with
  | [] =>
    match self.load_stored_result_or_raise_exception parsed_schema with
    | .error e => .error e
    | .ok stored_result => .ok ⟨self.get_single_evaluation_result stored_result, []⟩
  | parent0 :: _ =>
    match parent0 parsed_schema context with
    | .error e => .error e
    | .ok input_ =>
      let transformed_input_value := self.node.embed input_.main.value context
      .ok ⟨self.get_single_evaluation_result transformed_input_value, []⟩

/-- A Python list comprehension whose body may raise: elements are produced
left to right and the first exception aborts the whole comprehension. -/
def exceptMapList {α β ε : Type} (f : α → Except ε β) : List α → Except ε (List β)
  | [] => .ok []
  | a :: as =>
    match f a with
    | .error e => .error e
    | .ok b =>
      match exceptMapList f as with
      | .error e => .error e
      | .ok bs => .ok (b :: bs)

/-- `evaluate_self` (lines 56–68 of the source): default-vector short-circuit
for the whole batch, otherwise one `evaluate_self_single` per schema in input
order. -/
def OnlineCategoricalSimilarityNode.evaluate_self
    (self : OnlineCategoricalSimilarityNode) (parsed_schemas : List ParsedSchema)
    (context : ExecutionContext) : Except EvalError (List (EvaluationResult Vector)) :=
  if self.should_return_default_vector parsed_schemas context then
    .ok (parsed_schemas.map
      (fun _ => ⟨self.get_single_evaluation_result self.node.default_vector, []⟩))
  else
    exceptMapList (fun schema => self.evaluate_self_single schema context) parsed_schemas

/-- Modelled from the spec: `evaluate_next_single` of the base class — the
per-record entrypoint a child uses to pull one record's value; it evaluates
the singleton batch and takes element `[0]` of the result. -/
def OnlineCategoricalSimilarityNode.evaluate_next_single
    (self : OnlineCategoricalSimilarityNode) (parsed_schema : ParsedSchema)
    (context : ExecutionContext) : Except EvalError (EvaluationResult Vector) :=
  match self.evaluate_self [parsed_schema] context with
  | .error e => .error e
  | .ok [] => .error .indexError
  | .ok (r :: _) => .ok r

/-! Ingestion data loader (`server/runner/executor/app/service/data_loader.py`). -/

/-- Supported source formats (`DataFormat`). -/
inductive DataFormat where
  | CSV
  | FWF
  | XML
  | JSON
  | PARQUET
  | ORC
deriving DecidableEq

/-- A data-loader source's configuration (`source.config`): path, format and
pandas read options. -/
structure DataLoaderConfig where
  path : String
  format : DataFormat
  pandas_read_kwargs : List (String × String)
deriving DecidableEq

/-- Modelled from the spec: `DataLoaderSource` (its class is not in the
snapshot) compares equal exactly when its configuration is exactly equal, so
its observable identity is its configuration. -/
structure DataLoaderSource where
  config : DataLoaderConfig
deriving DecidableEq

/-- The observable state of one background task at polling time
(`task.done()`, `task.cancelled()`, `task.exception()`). -/
structure TaskState where
  done : Bool
  cancelled : Bool
  exception : Option String
deriving DecidableEq

/-- One tracked background task: its uuid name and its state. -/
structure DataLoaderTask where
  name : String
  state : TaskState
deriving DecidableEq

/-- `register_data_loader_sources` (lines 38–43): iterate over the given
sources; a source already registered is skipped (with a warning), otherwise
it is added. The Python `set` is modelled as a duplicate-free list. -/
def register_data_loader_sources (registered : List DataLoaderSource)
    (data_loader_sources : List DataLoaderSource) : List DataLoaderSource :=
  data_loader_sources.foldl
    (fun acc source => if source ∈ acc then acc else acc ++ [source]) registered

/-- Modelled from the spec: `uuid.uuid4()` draws a fresh unique name per
created task; modelled as a deterministic fresh-name supply indexed by the
position in the loading loop. -/
def taskName (i : Nat) : String :=
  "task-" ++ toString i

/-- `load` (lines 45–57), loop body starting at uuid-supply index `i`: one
task per registered source, whose terminal state is what
`__read_and_put_data` does for that source (`run`); the exception of a failed
run is captured on the task, never raised to the caller of `load`. -/
def loadFrom (run : DataLoaderSource → TaskState) (i : Nat) :
    List DataLoaderSource → List DataLoaderTask
  | [] => []
  | source :: rest => ⟨taskName i, run source⟩ :: loadFrom run (i + 1) rest

/-- `load` (lines 45–57): start one background task per registered source and
return the set of task names. -/
def load (sources : List DataLoaderSource) (run : DataLoaderSource → TaskState) :
    List DataLoaderTask :=
  loadFrom run 0 sources

/-- `get_task_status_by_name` (lines 59–75): find the task by name; `None`
when unknown, else running / cancelled / failed-with-detail / succeeded. -/
def get_task_status_by_name (tasks : List DataLoaderTask) (task_id : String) :
    Option String :=
  match tasks.find? (fun t => t.name == task_id) with
  | none => none
  | some task =>
    if !task.state.done then some "Task is still running"
    else if task.state.cancelled then some "Task was cancelled"
    else
      match task.state.exception with
      | some exc =>
        some ("Task failed with exception: " ++ exc ++ ". For traceback, check the logs.")
      | none => some "Task completed successfully"

/-! Helper lemmas. -/

theorem exceptMapList_ok_length {α β ε : Type} (f : α → Except ε β) :
    ∀ (l : List α) (bs : List β), exceptMapList f l = .ok bs → bs.length = l.length := by
  intro l
  induction l with
  | nil =>
    intro bs h
    simp only [exceptMapList] at h
    cases h
    rfl
  | cons a as ih =>
    intro bs h
    simp only [exceptMapList] at h
    cases hfa : f a with
    | error e => rw [hfa] at h; cases h
    | ok b =>
      rw [hfa] at h
      cases hrec : exceptMapList f as with
      | error e => rw [hrec] at h; cases h
      | ok cs =>
        rw [hrec] at h
        cases h
        simp [ih cs hrec]

theorem exceptMapList_ok_get {α β ε : Type} (f : α → Except ε β) :
    ∀ (l : List α) (bs : List β), exceptMapList f l = .ok bs →
      ∀ (i : Nat) (a : α), l[i]? = some a → ∃ b, bs[i]? = some b ∧ f a = .ok b := by
  intro l
  induction l with
  | nil =>
    intro bs _ i a ha
    simp at ha
  | cons x as ih =>
    intro bs h i a ha
    simp only [exceptMapList] at h
    cases hfa : f x with
    | error e => rw [hfa] at h; cases h
    | ok b =>
      rw [hfa] at h
      cases hrec : exceptMapList f as with
      | error e => rw [hrec] at h; cases h
      | ok cs =>
        rw [hrec] at h
        cases h
        cases i with
        | zero =>
          simp at ha
          subst ha
          exact ⟨b, by simp, hfa⟩
        | succ j =>
          simp only [List.getElem?_cons_succ] at ha ⊢
          exact ih cs hrec j a ha

theorem loadFrom_length (run : DataLoaderSource → TaskState) :
    ∀ (sources : List DataLoaderSource) (i : Nat),
      (loadFrom run i sources).length = sources.length := by
  intro sources
  induction sources with
  | nil => intro i; rfl
  | cons s rest ih => intro i; simp [loadFrom, ih]

theorem loadFrom_get (run : DataLoaderSource → TaskState) :
    ∀ (sources : List DataLoaderSource) (i j : Nat) (s : DataLoaderSource),
      sources[j]? = some s →
      (loadFrom run i sources)[j]? = some ⟨taskName (i + j), run s⟩ := by
  intro sources
  induction sources with
  | nil => intro i j s hs; simp at hs
  | cons x rest ih =>
    intro i j s hs
    cases j with
    | zero =>
      simp at hs
      subst hs
      simp [loadFrom]
    | succ k =>
      simp only [List.getElem?_cons_succ] at hs
      simp only [loadFrom, List.getElem?_cons_succ]
      rw [ih (i + 1) k s hs]
      simp [Nat.add_assoc, Nat.add_comm 1 k]

theorem loadFrom_map_name (run run2 : DataLoaderSource → TaskState) :
    ∀ (sources : List DataLoaderSource) (i : Nat),
      (loadFrom run i sources).map DataLoaderTask.name =
        (loadFrom run2 i sources).map DataLoaderTask.name := by
  intro sources
  induction sources with
  | nil => intro i; rfl
  | cons s rest ih => intro i; simp [loadFrom, ih]

theorem exceptMapList_ok_mem {α β ε : Type} (f : α → Except ε β) :
    ∀ (l : List α) (bs : List β), exceptMapList f l = .ok bs →
      ∀ b ∈ bs, ∃ a ∈ l, f a = .ok b := by
  intro l
  induction l with
  | nil =>
    intro bs h b hb
    simp only [exceptMapList] at h
    cases h
    simp at hb
  | cons x as ih =>
    intro bs h b hb
    simp only [exceptMapList] at h
    cases hfa : f x with
    | error e => rw [hfa] at h; cases h
    | ok c =>
      rw [hfa] at h
      cases hrec : exceptMapList f as with
      | error e => rw [hrec] at h; cases h
      | ok cs =>
        rw [hrec] at h
        cases h
        rcases List.mem_cons.mp hb with hb | hb
        · exact ⟨x, List.mem_cons_self x as, hb ▸ hfa⟩
        · obtain ⟨a, ha, hfa2⟩ := ih cs hrec b hb
          exact ⟨a, List.mem_cons_of_mem x ha, hfa2⟩

theorem evaluate_self_single_ok_main_length
    (self : OnlineCategoricalSimilarityNode) (parsed_schema : ParsedSchema)
    (context : ExecutionContext) (r : EvaluationResult Vector)
    (hstore : ∀ key v, self.storage_manager key = some v →
      v.value.length = self.node.length)
    (h : self.evaluate_self_single parsed_schema context = .ok r) :
    r.main.value.value.length = self.node.length := by
  unfold OnlineCategoricalSimilarityNode.evaluate_self_single at h
  cases hp : self.parents with
  | nil =>
    rw [hp] at h
    unfold OnlineCategoricalSimilarityNode.load_stored_result_or_raise_exception at h
    cases hst : self.storage_manager
        ⟨parsed_schema.schemaName, parsed_schema.id_, self.node.node_id⟩ with
    | none => rw [hst] at h; cases h
    | some v =>
      rw [hst] at h
      cases h
      exact hstore _ v hst
  | cons parent0 rest =>
    rw [hp] at h
    dsimp only at h
    cases hpar : parent0 parsed_schema context with
    | error e => rw [hpar] at h; cases h
    | ok input_ =>
      rw [hpar] at h
      cases h
      simp [OnlineCategoricalSimilarityNode.get_single_evaluation_result,
        CategoricalSimilarityNode.embed, CategoricalSimilarityNode.length]

theorem register_mem (registered new : List DataLoaderSource) (x : DataLoaderSource) :
    x ∈ register_data_loader_sources registered new ↔ x ∈ registered ∨ x ∈ new := by
  induction new generalizing registered with
  | nil => simp [register_data_loader_sources]
  | cons s rest ih =>
    simp only [register_data_loader_sources, List.foldl_cons] at ih ⊢
    by_cases hs : s ∈ registered
    · rw [if_pos hs, ih]
      constructor
      · rintro (h | h)
        · exact Or.inl h
        · exact Or.inr (List.mem_cons_of_mem s h)
      · rintro (h | h)
        · exact Or.inl h
        · rcases List.mem_cons.mp h with h | h
          · exact Or.inl (h ▸ hs)
          · exact Or.inr h
    · rw [if_neg hs, ih]
      simp only [List.mem_append, List.mem_singleton, List.mem_cons]
      tauto

theorem register_nodup (registered new : List DataLoaderSource)
    (h : registered.Nodup) : (register_data_loader_sources registered new).Nodup := by
  induction new generalizing registered with
  | nil => exact h
  | cons s rest ih =>
    simp only [register_data_loader_sources, List.foldl_cons] at ih ⊢
    by_cases hs : s ∈ registered
    · rw [if_pos hs]
      exact ih registered h
    · rw [if_neg hs]
      refine ih (registered ++ [s]) ?_
      simp [List.nodup_append, h, hs]

/-! Concrete fixtures used by witnesses. -/

/-- A categorical node with two categories, hence declared length 2. -/
def nodeA : CategoricalSimilarityNode := ⟨"node-a", ["red", "blue"]⟩

def schemaA : ParsedSchema := ⟨"car", "id-1"⟩

def schemaB : ParsedSchema := ⟨"car", "id-2"⟩

/-- A context signalling the default-vector pass. -/
def ctxDefault : ExecutionContext := ⟨true, "query"⟩

/-- A context that is not a default pass. -/
def ctxNormal : ExecutionContext := ⟨false, "query"⟩

/-- A store holding the vector `[1, 0]` under every key. -/
def storeA : StorageManager := fun _ => some ⟨[1, 0]⟩

/-- A store holding nothing. -/
def storeEmpty : StorageManager := fun _ => none

/-- A parent evaluator that always yields the label `"blue"`. -/
def parentBlue : ParentNode := fun _ _ => .ok ⟨⟨"parent-node", "blue"⟩, []⟩

/-! Claims. -/

/-- C10: for every execution context, `evaluate_self` on the empty batch
returns the empty result sequence on both branches; the outcome does not
depend on the parents or on the storage manager (both are universally
quantified and absent from the right-hand side), so no storage read and no
parent evaluation occurs. -/
theorem evaluate_self_empty_batch (node : CategoricalSimilarityNode)
    (parents : List ParentNode) (storage_manager : StorageManager)
    (context : ExecutionContext) :
    OnlineCategoricalSimilarityNode.evaluate_self ⟨node, parents, storage_manager⟩ [] context =
      .ok [] := by
  unfold OnlineCategoricalSimilarityNode.evaluate_self
  split <;> rfl

/-- C6: construction validates the parents count against
`LESS_THAN_TWO_PARENTS` with no evaluation side effects: with two or more
parents it fails with a ConfigurationError and produces no OnlineNode, with
fewer than two it succeeds with the wrapper unchanged. -/
theorem construct_validates_arity (node : CategoricalSimilarityNode)
    (parents : List ParentNode) (storage_manager : StorageManager) :
    (2 ≤ parents.length →
      OnlineCategoricalSimilarityNode.construct node parents storage_manager =
        .error (.invalidParentCount parents.length)) ∧
    (parents.length < 2 →
      OnlineCategoricalSimilarityNode.construct node parents storage_manager =
        .ok ⟨node, parents, storage_manager⟩) := by
  constructor
  · intro h2
    unfold OnlineCategoricalSimilarityNode.construct
    rw [if_neg]
    simp [ParentValidationType.validate]
    omega
  · intro h2
    unfold OnlineCategoricalSimilarityNode.construct
    rw [if_pos]
    simp [ParentValidationType.validate]
    omega

/-- Witness for C6 at concrete inputs: two parents are rejected, zero parents
are accepted. -/
theorem construct_validates_arity_witness :
    OnlineCategoricalSimilarityNode.construct nodeA [parentBlue, parentBlue] storeEmpty =
      .error (.invalidParentCount 2) ∧
    OnlineCategoricalSimilarityNode.construct nodeA [] storeEmpty =
      .ok ⟨nodeA, [], storeEmpty⟩ :=
  ⟨(construct_validates_arity nodeA [parentBlue, parentBlue] storeEmpty).1 (by decide),
   (construct_validates_arity nodeA [] storeEmpty).2 (by decide)⟩

/-- C3: a zero-parent node evaluated under a non-default-pass context looks
the key built from the node and schema identity up in the storage manager: a
present vector is wrapped and returned, an absent one fails the evaluation
with `MissingStoredResultError`. Both outcomes are equalities of a pure
function of (schema, context), so they are identical on every repeated call. -/
theorem source_node_loads_from_storage (node : CategoricalSimilarityNode)
    (storage_manager : StorageManager) (parsed_schema : ParsedSchema)
    (context : ExecutionContext)
    (hctx : context.should_load_default_node_input = false) :
    (∀ v, storage_manager ⟨parsed_schema.schemaName, parsed_schema.id_, node.node_id⟩ = some v →
      OnlineCategoricalSimilarityNode.evaluate_next_single
          ⟨node, [], storage_manager⟩ parsed_schema context =
        .ok ⟨⟨node.node_id, v⟩, []⟩) ∧
    (storage_manager ⟨parsed_schema.schemaName, parsed_schema.id_, node.node_id⟩ = none →
      OnlineCategoricalSimilarityNode.evaluate_next_single
          ⟨node, [], storage_manager⟩ parsed_schema context =
        .error (.missingStoredResult parsed_schema.schemaName parsed_schema.id_ node.node_id)) := by
  constructor
  · intro v hv
    simp [OnlineCategoricalSimilarityNode.evaluate_next_single,
      OnlineCategoricalSimilarityNode.evaluate_self,
      OnlineCategoricalSimilarityNode.should_return_default_vector, hctx, exceptMapList,
      OnlineCategoricalSimilarityNode.evaluate_self_single,
      OnlineCategoricalSimilarityNode.load_stored_result_or_raise_exception, hv,
      OnlineCategoricalSimilarityNode.get_single_evaluation_result]
  · intro hv
    simp [OnlineCategoricalSimilarityNode.evaluate_next_single,
      OnlineCategoricalSimilarityNode.evaluate_self,
      OnlineCategoricalSimilarityNode.should_return_default_vector, hctx, exceptMapList,
      OnlineCategoricalSimilarityNode.evaluate_self_single,
      OnlineCategoricalSimilarityNode.load_stored_result_or_raise_exception, hv]

/-- Witness for C3 at concrete inputs: a populated store returns its vector,
an empty store yields the missing-stored-result error. -/
theorem source_node_loads_from_storage_witness :
    (OnlineCategoricalSimilarityNode.evaluate_next_single
        ⟨nodeA, [], storeA⟩ schemaA ctxNormal = .ok ⟨⟨"node-a", ⟨[1, 0]⟩⟩, []⟩) ∧
    (OnlineCategoricalSimilarityNode.evaluate_next_single
        ⟨nodeA, [], storeEmpty⟩ schemaA ctxNormal =
      .error (.missingStoredResult "car" "id-1" "node-a")) :=
  ⟨(source_node_loads_from_storage nodeA storeA schemaA ctxNormal rfl).1 ⟨[1, 0]⟩ rfl,
   (source_node_loads_from_storage nodeA storeEmpty schemaA ctxNormal rfl).2 rfl⟩

/-- C4: a one-parent node evaluated under any context pulls the parent's
main value through `evaluate_next_single` and applies the node kind's
embedding transformation closed over the context; the result is a pure
function of the upstream main value and the context, hence identical on
repeated calls. -/
theorem one_parent_applies_embedding (node : CategoricalSimilarityNode)
    (parent : ParentNode) (storage_manager : StorageManager)
    (parsed_schema : ParsedSchema) (context : ExecutionContext)
    (input_ : EvaluationResult String)
    (hp : parent parsed_schema context = .ok input_) :
    OnlineCategoricalSimilarityNode.evaluate_self_single
        ⟨node, [parent], storage_manager⟩ parsed_schema context =
      .ok ⟨⟨node.node_id, node.embed input_.main.value context⟩, []⟩ := by
  simp [OnlineCategoricalSimilarityNode.evaluate_self_single, hp,
    OnlineCategoricalSimilarityNode.get_single_evaluation_result]

/-- Witness for C4: the fixed upstream label `"blue"` is one-hot embedded on
the node's two categories. -/
theorem one_parent_applies_embedding_witness :
    OnlineCategoricalSimilarityNode.evaluate_self_single
        ⟨nodeA, [parentBlue], storeEmpty⟩ schemaA ctxNormal =
      .ok ⟨⟨"node-a", nodeA.embed "blue" ctxNormal⟩, []⟩ :=
  one_parent_applies_embedding nodeA parentBlue storeEmpty schemaA ctxNormal
    ⟨⟨"parent-node", "blue"⟩, []⟩ rfl

/-- C1: whenever `evaluate_self` succeeds, the result sequence has exactly
the same length as the input batch, and the i-th result is the result
computed for the i-th input schema: on the default pass the constant default
result in batch order, otherwise the value of `evaluate_self_single` at the
i-th schema. -/
theorem evaluate_self_preserves_length_and_order
    (self : OnlineCategoricalSimilarityNode) (parsed_schemas : List ParsedSchema)
    (context : ExecutionContext) (results : List (EvaluationResult Vector))
    (h : self.evaluate_self parsed_schemas context = .ok results) :
    results.length = parsed_schemas.length ∧
    (self.should_return_default_vector parsed_schemas context = true →
      results = parsed_schemas.map
        (fun _ => ⟨self.get_single_evaluation_result self.node.default_vector, []⟩)) ∧
    (self.should_return_default_vector parsed_schemas context = false →
      ∀ (i : Nat) (schema : ParsedSchema), parsed_schemas[i]? = some schema →
        ∃ r, results[i]? = some r ∧
          self.evaluate_self_single schema context = .ok r) := by
  unfold OnlineCategoricalSimilarityNode.evaluate_self at h
  by_cases hd : self.should_return_default_vector parsed_schemas context = true
  · rw [if_pos hd] at h
    cases h
    refine ⟨List.length_map _ _, fun _ => rfl, fun hfalse => ?_⟩
    rw [hd] at hfalse
    cases hfalse
  · rw [if_neg hd] at h
    refine ⟨exceptMapList_ok_length _ _ _ h, fun htrue => absurd htrue hd, fun _ => ?_⟩
    intro i schema hi
    exact exceptMapList_ok_get _ _ _ h i schema hi

/-- Witness for C1 at a concrete two-schema batch on the per-schema branch. -/
theorem evaluate_self_preserves_length_and_order_witness :
    ([⟨⟨"node-a", ⟨[1, 0]⟩⟩, []⟩,
      ⟨⟨"node-a", ⟨[1, 0]⟩⟩, []⟩] : List (EvaluationResult Vector)).length =
        [schemaA, schemaB].length ∧
    ((OnlineCategoricalSimilarityNode.mk nodeA [] storeA).should_return_default_vector
        [schemaA, schemaB] ctxNormal = true →
      ([⟨⟨"node-a", ⟨[1, 0]⟩⟩, []⟩, ⟨⟨"node-a", ⟨[1, 0]⟩⟩, []⟩] :
          List (EvaluationResult Vector)) =
        [schemaA, schemaB].map
          (fun _ => ⟨(OnlineCategoricalSimilarityNode.mk nodeA [] storeA
              ).get_single_evaluation_result nodeA.default_vector, []⟩)) ∧
    ((OnlineCategoricalSimilarityNode.mk nodeA [] storeA).should_return_default_vector
        [schemaA, schemaB] ctxNormal = false →
      ∀ (i : Nat) (schema : ParsedSchema), [schemaA, schemaB][i]? = some schema →
        ∃ r, ([⟨⟨"node-a", ⟨[1, 0]⟩⟩, []⟩, ⟨⟨"node-a", ⟨[1, 0]⟩⟩, []⟩] :
            List (EvaluationResult Vector))[i]? = some r ∧
          (OnlineCategoricalSimilarityNode.mk nodeA [] storeA).evaluate_self_single
            schema ctxNormal = .ok r) :=
  evaluate_self_preserves_length_and_order ⟨nodeA, [], storeA⟩ [schemaA, schemaB]
    ctxNormal [⟨⟨"node-a", ⟨[1, 0]⟩⟩, []⟩, ⟨⟨"node-a", ⟨[1, 0]⟩⟩, []⟩] rfl

/-- C2: under a context signalling the default-vector pass, `evaluate_self`
returns one copy of the node's statically configured default vector per
schema in the batch, uniformly; the parents and the storage manager are
universally quantified in the conclusion and absent from the returned value,
so this path performs no parent evaluation and no storage read; every result
vector has the node's declared length. -/
theorem evaluate_self_default_pass (node : CategoricalSimilarityNode)
    (parsed_schemas : List ParsedSchema) (context : ExecutionContext)
    (h : context.should_load_default_node_input = true) :
    (∀ (parents : List ParentNode) (storage_manager : StorageManager),
      OnlineCategoricalSimilarityNode.evaluate_self
          ⟨node, parents, storage_manager⟩ parsed_schemas context =
        .ok (parsed_schemas.map
          (fun _ => ⟨⟨node.node_id, node.default_vector⟩, []⟩))) ∧
    (∀ r ∈ parsed_schemas.map
        (fun _ : ParsedSchema =>
          (⟨⟨node.node_id, node.default_vector⟩, []⟩ : EvaluationResult Vector)),
      r.main.value.value.length = node.length) := by
  constructor
  · intro parents storage_manager
    unfold OnlineCategoricalSimilarityNode.evaluate_self
    rw [if_pos]
    · rfl
    · simp [OnlineCategoricalSimilarityNode.should_return_default_vector, h]
  · intro r hr
    rcases List.mem_map.mp hr with ⟨schema, _, hrfl⟩
    rw [← hrfl]
    simp [CategoricalSimilarityNode.default_vector]

/-- Witness for C2 at a concrete two-schema batch under the default pass. -/
theorem evaluate_self_default_pass_witness :
    (∀ (parents : List ParentNode) (storage_manager : StorageManager),
      OnlineCategoricalSimilarityNode.evaluate_self
          ⟨nodeA, parents, storage_manager⟩ [schemaA, schemaB] ctxDefault =
        .ok ([schemaA, schemaB].map
          (fun _ => ⟨⟨nodeA.node_id, nodeA.default_vector⟩, []⟩))) ∧
    (∀ r ∈ [schemaA, schemaB].map
        (fun _ : ParsedSchema =>
          (⟨⟨nodeA.node_id, nodeA.default_vector⟩, []⟩ : EvaluationResult Vector)),
      r.main.value.value.length = nodeA.length) :=
  evaluate_self_default_pass nodeA [schemaA, schemaB] ctxDefault rfl

/-- C5: the i-th result of the batched `evaluate_self` equals the result of
the per-record entrypoint `evaluate_next_single` applied to the i-th schema:
pre-computing per batch and pulling one record at a time are observably
identical. -/
theorem batch_refines_single (self : OnlineCategoricalSimilarityNode)
    (parsed_schemas : List ParsedSchema) (context : ExecutionContext)
    (results : List (EvaluationResult Vector))
    (h : self.evaluate_self parsed_schemas context = .ok results)
    (i : Nat) (schema : ParsedSchema) (hi : parsed_schemas[i]? = some schema) :
    ∃ r, results[i]? = some r ∧ self.evaluate_next_single schema context = .ok r := by
  unfold OnlineCategoricalSimilarityNode.evaluate_self at h
  by_cases hd : self.should_return_default_vector parsed_schemas context = true
  · rw [if_pos hd] at h
    cases h
    simp only [OnlineCategoricalSimilarityNode.should_return_default_vector] at hd
    refine ⟨⟨self.get_single_evaluation_result self.node.default_vector, []⟩, ?_, ?_⟩
    · rw [List.getElem?_map, hi]
      rfl
    · simp [OnlineCategoricalSimilarityNode.evaluate_next_single,
        OnlineCategoricalSimilarityNode.evaluate_self,
        OnlineCategoricalSimilarityNode.should_return_default_vector, hd]
  · rw [if_neg hd] at h
    obtain ⟨r, hri, hsingle⟩ := exceptMapList_ok_get _ _ _ h i schema hi
    refine ⟨r, hri, ?_⟩
    simp only [OnlineCategoricalSimilarityNode.should_return_default_vector,
      Bool.not_eq_true] at hd
    simp [OnlineCategoricalSimilarityNode.evaluate_next_single,
      OnlineCategoricalSimilarityNode.evaluate_self,
      OnlineCategoricalSimilarityNode.should_return_default_vector, hd,
      exceptMapList, hsingle]

/-- Witness for C5: the second record of a concrete batch pulled singly
matches the batched result. -/
theorem batch_refines_single_witness :
    ∃ r, ([⟨⟨"node-a", ⟨[1, 0]⟩⟩, []⟩, ⟨⟨"node-a", ⟨[1, 0]⟩⟩, []⟩] :
        List (EvaluationResult Vector))[1]? = some r ∧
      (OnlineCategoricalSimilarityNode.mk nodeA [] storeA).evaluate_next_single
        schemaB ctxNormal = .ok r :=
  batch_refines_single ⟨nodeA, [], storeA⟩ [schemaA, schemaB] ctxNormal
    [⟨⟨"node-a", ⟨[1, 0]⟩⟩, []⟩, ⟨⟨"node-a", ⟨[1, 0]⟩⟩, []⟩] rfl 1 schemaB rfl

/-- A store whose stored vector has length 1, shorter than nodeA's declared
length 2. -/
def storeShort : StorageManager := fun _ => some ⟨[5]⟩

/-- Counterexample to C7 as stated: a zero-parent node evaluated outside the
default pass wraps whatever vector the storage manager holds without checking
its length, so a stored vector of length 1 is returned by a node of declared
length 2. -/
theorem stored_vector_length_unchecked :
    OnlineCategoricalSimilarityNode.evaluate_self
        ⟨nodeA, [], storeShort⟩ [schemaA] ctxNormal =
      .ok [⟨⟨"node-a", ⟨[5]⟩⟩, []⟩] ∧
    ¬ (⟨[5]⟩ : Vector).value.length = nodeA.length := by
  refine ⟨rfl, ?_⟩
  simp [nodeA, CategoricalSimilarityNode.length]

/-- C7 amended: provided every vector held by the storage manager has the
node's declared length (the code never checks stored lengths), every vector
produced by `evaluate_self` — default vector, stored vector, or embedding
output — has length exactly the node's declared length. -/
theorem produced_vector_has_node_length
    (self : OnlineCategoricalSimilarityNode) (parsed_schemas : List ParsedSchema)
    (context : ExecutionContext) (results : List (EvaluationResult Vector))
    (hstore : ∀ key v, self.storage_manager key = some v →
      v.value.length = self.node.length)
    (h : self.evaluate_self parsed_schemas context = .ok results) :
    ∀ r ∈ results, r.main.value.value.length = self.node.length := by
  intro r hr
  unfold OnlineCategoricalSimilarityNode.evaluate_self at h
  by_cases hd : self.should_return_default_vector parsed_schemas context = true
  · rw [if_pos hd] at h
    cases h
    rcases List.mem_map.mp hr with ⟨schema, _, hrfl⟩
    rw [← hrfl]
    simp [OnlineCategoricalSimilarityNode.get_single_evaluation_result,
      CategoricalSimilarityNode.default_vector]
  · rw [if_neg hd] at h
    obtain ⟨schema, _, hsingle⟩ := exceptMapList_ok_mem _ _ _ h r hr
    exact evaluate_self_single_ok_main_length self schema context r hstore hsingle

/-- Witness for C7 amended: a store of length-2 vectors yields a length-2
result on the storage path of a node of declared length 2. -/
theorem produced_vector_has_node_length_witness :
    (⟨⟨"node-a", ⟨[1, 0]⟩⟩, []⟩ : EvaluationResult Vector).main.value.value.length =
      nodeA.length :=
  produced_vector_has_node_length ⟨nodeA, [], storeA⟩ [schemaA] ctxNormal
    [⟨⟨"node-a", ⟨[1, 0]⟩⟩, []⟩]
    (fun key v hv => by
      simp only [storeA, Option.some.injEq] at hv
      rw [← hv]
      rfl)
    rfl
    ⟨⟨"node-a", ⟨[1, 0]⟩⟩, []⟩ (List.mem_singleton.mpr rfl)

/-! Data-loader fixtures. -/

def srcX : DataLoaderSource := ⟨⟨"/data/a.csv", .CSV, []⟩⟩

def srcY : DataLoaderSource := ⟨⟨"/data/b.json", .JSON, []⟩⟩

/-- A run in which every source ingests successfully. -/
def runOk : DataLoaderSource → TaskState := fun _ => ⟨true, false, none⟩

/-- A run in which `srcY` fails with an exception and every other source
succeeds. -/
def runMixed : DataLoaderSource → TaskState :=
  fun src => if src = srcY then ⟨true, false, some "boom"⟩ else ⟨true, false, none⟩

/-- C8: registration skips sources exactly equal to an already-registered
configuration, keeping the registered collection duplicate-free with exactly
the union of memberships; registering the same source twice before `load`
yields exactly one registered source, and `load` then emits exactly one task
identifier, and in general one task identifier per registered source. -/
theorem register_dedup_one_task (registered new : List DataLoaderSource)
    (s : DataLoaderSource) (run : DataLoaderSource → TaskState)
    (h : registered.Nodup) :
    (register_data_loader_sources registered new).Nodup ∧
    (∀ x, x ∈ register_data_loader_sources registered new ↔
      x ∈ registered ∨ x ∈ new) ∧
    register_data_loader_sources [] [s, s] = [s] ∧
    (load (register_data_loader_sources [] [s, s]) run).map DataLoaderTask.name =
      [taskName 0] ∧
    ∀ sources : List DataLoaderSource,
      ((load sources run).map DataLoaderTask.name).length = sources.length := by
  have hss : register_data_loader_sources [] [s, s] = [s] := by
    simp [register_data_loader_sources]
  refine ⟨register_nodup registered new h, fun x => register_mem registered new x,
    hss, ?_, ?_⟩
  · rw [hss]
    rfl
  · intro sources
    simp [load, loadFrom_length]

/-- Witness for C8 at concrete inputs. -/
theorem register_dedup_one_task_witness :
    (register_data_loader_sources [] [srcX]).Nodup ∧
    (∀ x, x ∈ register_data_loader_sources [] [srcX] ↔
      x ∈ ([] : List DataLoaderSource) ∨ x ∈ [srcX]) ∧
    register_data_loader_sources [] [srcX, srcX] = [srcX] ∧
    (load (register_data_loader_sources [] [srcX, srcX]) runOk).map
        DataLoaderTask.name = [taskName 0] ∧
    ∀ sources : List DataLoaderSource,
      ((load sources runOk).map DataLoaderTask.name).length = sources.length :=
  register_dedup_one_task [] [srcX] srcX runOk List.nodup_nil

/-- C9: the status query is total over its five outcomes — unknown (`none`),
running, cancelled, failed with retained detail, succeeded; the task names
`load` returns do not depend on what the per-source runs do (a failing run is
captured on its task, never raised to the caller of `load`); and the task
created for the i-th source is determined by that source's run alone, so
changing every other task's outcome leaves it untouched. -/
theorem task_status_taxonomy_and_isolation (tasks : List DataLoaderTask)
    (task_id : String) (sources : List DataLoaderSource)
    (run run2 : DataLoaderSource → TaskState) (i : Nat) (s : DataLoaderSource)
    (hs : sources[i]? = some s) (hrun : run s = run2 s) :
    (get_task_status_by_name tasks task_id = none ∨
     get_task_status_by_name tasks task_id = some "Task is still running" ∨
     get_task_status_by_name tasks task_id = some "Task was cancelled" ∨
     (∃ d, get_task_status_by_name tasks task_id =
        some ("Task failed with exception: " ++ d ++
          ". For traceback, check the logs.")) ∨
     get_task_status_by_name tasks task_id = some "Task completed successfully") ∧
    (load sources run).map DataLoaderTask.name =
      (load sources run2).map DataLoaderTask.name ∧
    (load sources run)[i]? = some ⟨taskName i, run s⟩ ∧
    (load sources run2)[i]? = some ⟨taskName i, run s⟩ := by
  refine ⟨?_, loadFrom_map_name run run2 sources 0, ?_, ?_⟩
  · unfold get_task_status_by_name
    cases hfind : tasks.find? (fun t => t.name == task_id) with
    | none => exact Or.inl rfl
    | some task =>
      cases hdone : task.state.done with
      | false =>
        right; left
        simp [hdone]
      | true =>
        cases hcanc : task.state.cancelled with
        | true =>
          right; right; left
          simp [hdone, hcanc]
        | false =>
          cases hexc : task.state.exception with
          | some exc =>
            right; right; right; left
            exact ⟨exc, by simp [hdone, hcanc, hexc]⟩
          | none =>
            right; right; right; right
            simp [hdone, hcanc, hexc]
  · have hg := loadFrom_get run sources 0 i s hs
    simpa [load] using hg
  · have hg := loadFrom_get run2 sources 0 i s hs
    rw [← hrun] at hg
    simpa [load] using hg

/-- Witness for C9 at concrete inputs: one succeeded task is reported as
such, and the task of `srcX` is unchanged when the run of `srcY` turns into
a failure. -/
theorem task_status_taxonomy_and_isolation_witness :
    (get_task_status_by_name [⟨"t-0", ⟨true, false, none⟩⟩] "t-0" = none ∨
     get_task_status_by_name [⟨"t-0", ⟨true, false, none⟩⟩] "t-0" =
       some "Task is still running" ∨
     get_task_status_by_name [⟨"t-0", ⟨true, false, none⟩⟩] "t-0" =
       some "Task was cancelled" ∨
     (∃ d, get_task_status_by_name [⟨"t-0", ⟨true, false, none⟩⟩] "t-0" =
        some ("Task failed with exception: " ++ d ++
          ". For traceback, check the logs.")) ∨
     get_task_status_by_name [⟨"t-0", ⟨true, false, none⟩⟩] "t-0" =
       some "Task completed successfully") ∧
    (load [srcX, srcY] runOk).map DataLoaderTask.name =
      (load [srcX, srcY] runMixed).map DataLoaderTask.name ∧
    (load [srcX, srcY] runOk)[0]? = some ⟨taskName 0, runOk srcX⟩ ∧
    (load [srcX, srcY] runMixed)[0]? = some ⟨taskName 0, runOk srcX⟩ :=
  task_status_taxonomy_and_isolation [⟨"t-0", ⟨true, false, none⟩⟩] "t-0"
    [srcX, srcY] runOk runMixed 0 srcX rfl rfl

end Superlinked
